import Mathlib

/-!
Shallow embedding of the SIA alarm-protocol core of this repository.

The embedded code lives in:
* `src/custom_components/pysiaalarm/sia/event.py` (event classes and validity
  flags),
* `src/custom_components/pysiaalarm/sia/aio/server.py` (the asyncio TCP server
  and its simplified message parser),
* `src/custom_components/pysiaalarm/sia/aio/client.py` (the asyncio client),
* `src/src/pysiaalarm/base_server.py` (the threaded base server: counting and
  the dispatch wrappers),
* `src/tests/smoke_test.py` (`crc_calc`, the CRC-16 checksum).

Strings are modelled as `List Char`; all inputs of interest are ASCII.
`datetime` values are modelled as absolute instants in microseconds since an
arbitrary epoch (`Int`); comparisons between timezone-aware datetimes in
Python compare absolute instants, so a timezone does not need to be carried.
-/

namespace PySIA

/-! ### Character classes used by the regexes in `sia/aio/server.py` (ASCII) -/

/-- Python regex class `\w` (ASCII range): letters, digits and underscore. -/
def isWordChar (c : Char) : Bool := c.isAlphanum || c = '_'

/-- Python `str.strip()` on ASCII text: drop whitespace at both ends. -/
def pyStrip (l : List Char) : List Char :=
  ((l.dropWhile Char.isWhitespace).reverse.dropWhile Char.isWhitespace).reverse

/-! ### Response codes

Modelled from the spec: `sia/utils/enums.py` (imported as `ResponseType` by
`sia/event.py`) is not under `src/`; the spec fixes the three response kinds
acknowledge / reject / keep-alive-ack with literals `"ACK"`, `"NAK"`, `"DUH"`. -/

inductive ResponseType where
  | ACK
  | DUH
  | NAK
deriving DecidableEq, Repr

/-! ### Accounts

Modelled from the spec: `sia/account.py` is not under `src/`. From the code's
uses (`account_id`, `allowed_timeband`, optional key) and the spec's Account
data model: identifier, optional symmetric key, allowed-timestamp-skew policy
(a backward/forward pair of tolerances in microseconds, or `none` meaning the
timestamp check is disabled). -/

structure SIAAccount where
  account_id : List Char
  key : Option (List Char) := none
  allowed_timeband : Option (Int × Int) := none
deriving DecidableEq, Repr

/-! ### Events (`sia/event.py`)

The Python class hierarchy `BaseEvent` / `SIAEvent` / `OHEvent` (plus the
`NAKEvent` used by `base_server.py`, whose module is not under `src/`) is a
tagged variant: one structure holding the `BaseEvent` dataclass fields and a
kind tag. -/

inductive EventKind where
  | sia
  | oh
  | nak
deriving DecidableEq, Repr

structure Event where
  kind : EventKind
  full_message : Option (List Char) := none
  msg_crc : Option (List Char) := none
  length : Option (List Char) := none
  message_type : Option (List Char) := none
  receiver : List Char := "R0".toList
  line : List Char := "L0".toList
  account : Option (List Char) := none
  sequence : Option (List Char) := none
  content : Option (List Char) := none
  ti : Option (List Char) := none
  ri : Option (List Char) := none
  code : Option (List Char) := none
  message : Option (List Char) := none
  x_data : Option (List Char) := none
  timestamp : Option Int := none
  zone : Option Int := none
  calc_crc : Option (List Char) := none
  sia_account : Option SIAAccount := none
deriving DecidableEq, Repr

/-- `BaseEvent.valid_message` (event.py lines 53-56): the simplified event
class returns `True` unconditionally, for every event. -/
def valid_message (_e : Event) : Bool := true

/-- `BaseEvent.code_not_found` (event.py lines 58-61): `self.code is None`. -/
def code_not_found (e : Event) : Bool := e.code.isNone

/-- The hard-coded `tolerance_seconds = 300` of `BaseEvent.valid_timestamp`
(event.py line 87), in microseconds. -/
def toleranceMicros : Int := 300 * 1000000

/-- `BaseEvent.valid_timestamp` (event.py lines 68-101).  Returns `True` when
there is no resolved account, when the account's `allowed_timeband` is `None`,
or when the timestamp is absent / not a datetime; otherwise compares the event
instant against now with the fixed 300-second tolerance in both directions,
bounds inclusive.  The configured `allowed_timeband` value is never read. -/
def valid_timestamp (e : Event) (now : Int) : Bool :=
  match e.sia_account with
  | none => true
  | some acct =>
    match acct.allowed_timeband with
    | none => true
    | some _ =>
      match e.timestamp with
      | none => true
      | some t =>
        decide (now - toleranceMicros ≤ t) && decide (t ≤ now + toleranceMicros)

/-- Response selection: `SIAEvent.response` (event.py lines 112-117) returns
ACK iff `valid_message`, else NAK; `OHEvent.response` (lines 130-133) returns
DUH.  The NAK case is modelled from the spec: `NAKEvent` lives in the
`src/pysiaalarm/event.py` module that is not under `src/`; the spec says
Variant C always yields the reject response. -/
def response (e : Event) : ResponseType :=
  match e.kind with
  | .sia => if valid_message e then .ACK else .NAK
  | .oh => .DUH
  | .nak => .NAK

/-- `SIAEvent.create_response` (event.py lines 119-123):
`f-string '"ACK"R{self.receiver}L{self.line}#{self.account}'` encoded, with
`receiver`/`line` holding their dataclass defaults `"R0"`/`"L0"` unless
overwritten; `OHEvent.create_response` (lines 135-138) is the fixed literal
`b'"DUH"'`.  A `None` account renders as Python renders `None`.  The NAK case
is modelled from the spec (reject literal `"NAK"`): the `NAKEvent` class is
not under `src/`. -/
def create_response (e : Event) : List Char :=
  match e.kind with
  | .sia =>
    "\"ACK\"R".toList ++ e.receiver ++ "L".toList ++ e.line ++ "#".toList ++
      (match e.account with
       | some a => a
       | none => "None".toList)
  | .oh => "\"DUH\"".toList
  | .nak => "\"NAK\"".toList

/-! ### Diagnostics counters and the base server (`src/pysiaalarm/base_server.py`)

The counter names mirror the `COUNTER_*` constants imported from
`src/pysiaalarm/const.py` (modelled from the spec's Counter Registry: total
lines seen, unknown-account, format-error, checksum-mismatch, missing-code,
timestamp-invalid, user-code-error, valid/dispatched events). -/

inductive CounterName where
  | events
  | account
  | format
  | crc
  | code
  | timestamp
  | userCode
  | validEvents
deriving DecidableEq, Repr

/-- Outcome of one call of `BaseSIAServer.func_wrap` / `async_func_wrap`:
how the two counters changed and whether the user callback was invoked. -/
structure DispatchResult where
  valid_events_inc : Nat
  user_code_inc : Nat
  dispatched : Bool
deriving DecidableEq, Repr

/-- `BaseSIAServer.func_wrap` (base_server.py lines 148-161): return without
doing anything unless the event is a (non-`None`) `SIAEvent` whose `response`
is `ACK`; otherwise increment the valid-events counter and call the user
function, catching every exception it raises and counting it in the
user-code counter.  `raises e = true` models the user callback raising on
`e`. -/
def func_wrap (raises : Event → Bool) : Option Event → DispatchResult
  | none => ⟨0, 0, false⟩
  | some e =>
    if e.kind = .sia ∧ response e = .ACK then
      ⟨1, if raises e then 1 else 0, true⟩
    else ⟨0, 0, false⟩

/-- `BaseSIAServer.async_func_wrap` (base_server.py lines 133-146): identical
logic to `func_wrap`, awaiting the coroutine callback instead. -/
def async_func_wrap (raises : Event → Bool) : Option Event → DispatchResult
  | none => ⟨0, 0, false⟩
  | some e =>
    if e.kind = .sia ∧ response e = .ACK then
      ⟨1, if raises e then 1 else 0, true⟩
    else ⟨0, 0, false⟩

/-- Typed parse failures of `SIAEvent.from_line`, as caught by
`parse_and_check_event` (base_server.py lines 112-119): `NoAccountError` and
`EventFormatError` from `src/pysiaalarm/errors.py`. -/
inductive ParseFailure where
  | noAccount
  | formatError
deriving DecidableEq, Repr

/-- `BaseSIAServer.parse_and_check_event` (base_server.py lines 91-131).
`SIAEvent.from_line` is code of this repository that is not under `src/`
(only this caller is), so the parse step is a parameter `fromLine` giving its
outcome on the stripped line.  Returns the event handed on (or `none` for an
empty line) together with the list of counters incremented, in order: an
empty line is idle (not counted); otherwise the total-events counter is
incremented first, then a `NoAccountError` counts unknown-account and yields
a `NAKEvent`, an `EventFormatError` counts format and yields a `NAKEvent`;
an `OHEvent` passes through; otherwise exactly the first failing check of
checksum / account / code / timestamp is counted. -/
def parse_and_check_event (fromLine : List Char → Except ParseFailure Event)
    (now : Int) (data : List Char) : Option Event × List CounterName :=
  if (pyStrip (data.filter (fun c => c.toNat ≤ 127))).isEmpty then (none, [])
  else
    match fromLine (pyStrip (data.filter (fun c => c.toNat ≤ 127))) with
    | .error .noAccount => (some { kind := .nak }, [.events, .account])
    | .error .formatError => (some { kind := .nak }, [.events, .format])
    | .ok e =>
      if e.kind = .oh then (some e, [.events])
      else
        (some e,
          .events ::
            (if ¬ valid_message e then [.crc]
             else if e.sia_account.isNone then [.account]
             else if code_not_found e then [.code]
             else if ¬ valid_timestamp e now then [.timestamp]
             else []))

/-! ### Checksum engine (`src/tests/smoke_test.py`, `crc_calc`) -/

/-- One inner-loop iteration of `crc_calc` (smoke_test.py lines 26-31), on the
state `(crc, temp)`:
`temp ^= crc & 1; crc >>= 1; if temp & 1: crc ^= 0xA001; temp >>= 1`. -/
def crcBitStep (s : Nat × Nat) : Nat × Nat :=
  let temp := s.2 ^^^ (s.1 &&& 1)
  let crc := s.1 >>> 1
  let crc := if temp &&& 1 = 1 then crc ^^^ 0xA001 else crc
  (crc, temp >>> 1)

/-- The per-byte loop of `crc_calc`: 8 bit iterations starting from
`temp = letter`. -/
def crcByte (crc b : Nat) : Nat := (crcBitStep^[8] (crc, b)).1

/-- `crc_calc` (smoke_test.py lines 21-32) up to serialization: fold the
per-byte loop over the message bytes starting from `crc = 0`. -/
def crc_calc (bs : List Nat) : Nat := bs.foldl crcByte 0

/-- Hexadecimal digit, uppercase (the effect of `'%04x' % crc` followed by
`.upper()` on each digit). -/
def hexDigitU (n : Nat) : Char :=
  if n < 10 then Char.ofNat (48 + n) else Char.ofNat (55 + n)

/-- Serialization of `crc_calc`'s result, `("%04x" % crc).upper()`: the
4-hex-digit uppercase, zero-padded rendering (exact for values below 2^16,
which the CRC never exceeds). -/
def toHex4 (n : Nat) : List Char :=
  [hexDigitU (n / 4096 % 16), hexDigitU (n / 256 % 16),
   hexDigitU (n / 16 % 16), hexDigitU (n % 16)]

/-- Full `crc_calc` including its serialization step. -/
def crc_calc_hex (bs : List Nat) : List Char := toHex4 (crc_calc bs)

/-- Modelled from the spec: one bit step of the standard CRC-16 with
reflected polynomial 0xA001 — `if crc & 1: crc = (crc >> 1) ^ 0xA001 else
crc >>= 1`. -/
def stdBitStep (c : Nat) : Nat :=
  if c &&& 1 = 1 then (c >>> 1) ^^^ 0xA001 else c >>> 1

/-- Modelled from the spec: the standard CRC-16/ARC per-byte step — xor the
byte into the low bits, then 8 bit steps. -/
def stdByte (crc b : Nat) : Nat := stdBitStep^[8] (crc ^^^ b)

/-- Modelled from the spec: standard CRC-16, polynomial 0xA001 (reflected
0x8005), initial value 0, byte-by-byte, 8 shifts per byte. -/
def crc16_std (bs : List Nat) : Nat := bs.foldl stdByte 0

/-- Modelled from the spec (§4.2): `verify(bytes, declared)` is
`compute(bytes) == declared`; no verify function is under `src/` (the
simplified `valid_message` never compares checksums). -/
def verify (bs : List Nat) (declared : Nat) : Bool := crc_calc bs == declared

/-! ### The asyncio server's regex searches (`sia/aio/server.py`)

Each Python `re.search` below is compiled to a direct leftmost-first scan of
the subject, faithful to the backtracking semantics of the concrete pattern
(character classes taken in their ASCII range, matching the inputs the server
receives). -/

/-- Attempt of the leading part `"(SIA-DCS|ADM-CID|OH)"` of `SIA_REGEX` at the
current position: alternatives tried in order; returns the tag text and the
rest of the subject after the closing quote. -/
def tagHere (l : List Char) : Option (List Char × List Char) :=
  if ("\"SIA-DCS\"".toList).isPrefixOf l then some ("SIA-DCS".toList, l.drop 9)
  else if ("\"ADM-CID\"".toList).isPrefixOf l then some ("ADM-CID".toList, l.drop 9)
  else if ("\"OH\"".toList).isPrefixOf l then some ("OH".toList, l.drop 4)
  else none

/-- The trailing part `.*?#(\w+)` of `SIA_REGEX` (with DOTALL): the lazy `.*?`
stops at the first `#` that is followed by at least one word character; the
group is the maximal word run after that `#`. -/
def findHashAccount : List Char → Option (List Char)
  | [] => none
  | c :: rest =>
    if c = '#' then
      let w := rest.takeWhile isWordChar
      if w.isEmpty then findHashAccount rest else some w
    else findHashAccount rest

/-- `SIA_REGEX.search` (server.py lines 17-23): leftmost position where a
quoted tag matches and a `#`-marked word follows; on a tag without a later
account marker the engine moves to the next start position. -/
def siaRegexSearch : List Char → Option (List Char × List Char)
  | [] => none
  | c :: rest =>
    match tagHere (c :: rest) with
    | some (tag, after) =>
      match findHashAccount after with
      | some acc => some (tag, acc)
      | none => siaRegexSearch rest
    | none => siaRegexSearch rest

/-- `re.search(r'L\d+', message)` and `re.search(r'R\d+', message)`
(server.py lines 95-96): leftmost marker character followed by at least one
digit; the whole match (marker included) is returned. -/
def findMarkerNum (m : Char) : List Char → Option (List Char)
  | [] => none
  | c :: rest =>
    if c = m then
      let d := rest.takeWhile Char.isDigit
      if d.isEmpty then findMarkerNum m rest else some (c :: d)
    else findMarkerNum m rest

/-- Helper of `findBracket`: the characters before the first `]`, failing on a
newline (the pattern `\[(.*?)\]` is compiled without DOTALL). -/
def takeUntilRB : List Char → Option (List Char)
  | [] => none
  | c :: rest =>
    if c = ']' then some []
    else if c = '\n' then none
    else (takeUntilRB rest).map (c :: ·)

/-- `re.search(r"\[(.*?)\]", message)` (server.py line 136): content of the
leftmost bracket pair. -/
def findBracket : List Char → Option (List Char)
  | [] => none
  | c :: rest =>
    if c = '[' then
      match takeUntilRB rest with
      | some content => some content
      | none => findBracket rest
    else findBracket rest

/-- Attempt of `\b(\d{3})\b` at the current position: three digits with a
word boundary on both sides (`prevWord` tells whether the previous subject
character is a word character). -/
def code3Here (prevWord : Bool) (l : List Char) : Option (List Char) :=
  match l with
  | c1 :: c2 :: c3 :: rest =>
    if !prevWord && c1.isDigit && c2.isDigit && c3.isDigit &&
       (match rest with
        | [] => true
        | d :: _ => !isWordChar d) then
      some [c1, c2, c3]
    else none
  | _ => none

/-- `re.search(r"\b(\d{3})\b", content)` (server.py line 140): leftmost
3-digit word. -/
def findCode3 (prevWord : Bool) : List Char → Option (List Char)
  | [] => none
  | c :: rest =>
    match code3Here prevWord (c :: rest) with
    | some r => some r
    | none => findCode3 (isWordChar c) rest

/-- Attempt of `Nri(\d+)([A-Z]{2})(\d+)` at the current position.  The digit
and uppercase classes are disjoint, so the greedy `\d+` groups are the
maximal digit runs. -/
def nriHere (l : List Char) : Option (List Char × List Char × List Char) :=
  match l with
  | 'N' :: 'r' :: 'i' :: rest =>
    let d1 := rest.takeWhile Char.isDigit
    if d1.isEmpty then none
    else
      match rest.drop d1.length with
      | a :: b :: rest2 =>
        if a.isUpper && b.isUpper then
          let d2 := rest2.takeWhile Char.isDigit
          if d2.isEmpty then none else some (d1, [a, b], d2)
        else none
      | _ => none
  | _ => none

/-- `re.search(r"Nri(\d+)([A-Z]{2})(\d+)", content)` (server.py line 146). -/
def findNri : List Char → Option (List Char × List Char × List Char)
  | [] => none
  | c :: rest =>
    match nriHere (c :: rest) with
    | some r => some r
    | none => findNri rest

/-- The `i(\d+)` tail of the `ri` pattern at the current position. -/
def riTail (l : List Char) : Option (List Char) :=
  match l with
  | 'i' :: rest =>
    let d := rest.takeWhile Char.isDigit
    if d.isEmpty then none else some d
  | _ => none

/-- Attempt of `[Rr]?i(\d+)` at the current position: the optional marker is
greedy, with backtracking to the empty alternative. -/
def riHere (l : List Char) : Option (List Char) :=
  match l with
  | [] => none
  | c :: rest =>
    if c = 'R' || c = 'r' then
      match riTail rest with
      | some d => some d
      | none => riTail (c :: rest)
    else riTail (c :: rest)

/-- `re.search(r"[Rr]?i(\d+)", content)` (server.py line 161). -/
def findRi : List Char → Option (List Char)
  | [] => none
  | c :: rest =>
    match riHere (c :: rest) with
    | some r => some r
    | none => findRi rest

/-- Python `int()` on a nonempty decimal-digit string. -/
def digitsToInt (l : List Char) : Int :=
  (l.foldl (fun n c => 10 * n + (c.toNat - 48)) 0 : Nat)

/-! ### Account dictionary

`SIAClient.__init__` builds `{a.account_id: a for a in accounts}`; modelled
as an association list with insert-or-replace (Python dict: first-insertion
position kept, later value wins). -/

def lookupAccount (d : List (List Char × SIAAccount)) (k : List Char) :
    Option SIAAccount :=
  match d with
  | [] => none
  | (k2, a) :: rest => if k2 = k then some a else lookupAccount rest k

def insertAccount (d : List (List Char × SIAAccount)) (k : List Char)
    (v : SIAAccount) : List (List Char × SIAAccount) :=
  match d with
  | [] => [(k, v)]
  | (k2, v2) :: rest =>
    if k2 = k then (k2, v) :: rest else (k2, v2) :: insertAccount rest k v

def accountsDict (accounts : List SIAAccount) : List (List Char × SIAAccount) :=
  accounts.foldl (fun d a => insertAccount d a.account_id a) []

/-! ### The asyncio server (`sia/aio/server.py`) -/

/-- `SIAServerTCP._parse_message` (server.py lines 80-176).  `now` stands for
`datetime.now()`.  Strip the message; search `SIA_REGEX`, failing to `None`
when it does not match; uppercase the account id and extract the `L\d+` /
`R\d+` markers (defaults `'L0'` / `'R0'`); drop the line (`None`) when the
account id is not configured; build an `OHEvent` for tag `OH`, otherwise a
`SIAEvent` with fallback code `"999"`, then refine code / `ri` / `zone` from
the first bracketed block: a `\b\d{3}\b` code, overridden by the
`Nri(\d+)([A-Z]{2})(\d+)` form (code `"XY-<zone>"`), and finally the
`[Rr]?i(\d+)` zone, which overrides `ri`/`zone` once more.  The whole body is
wrapped in `try/except` returning `None`, so the parser never throws. -/
def parse_message (accounts : List (List Char × SIAAccount)) (now : Int)
    (message0 : List Char) : Option Event :=
  let message := pyStrip message0
  match siaRegexSearch message with
  | none => none
  | some (msg_type, acc) =>
    let account_id := acc.map Char.toUpper
    let lineF := (findMarkerNum 'L' message).getD ("L0".toList)
    let receiver := (findMarkerNum 'R' message).getD ("R0".toList)
    match lookupAccount accounts account_id with
    | none => none
    | some account =>
      if msg_type = "OH".toList then
        some { kind := .oh, full_message := some message,
               message_type := some msg_type, account := some account_id,
               line := lineF, receiver := receiver, timestamp := some now,
               sia_account := some account }
      else
        let ev : Event :=
          { kind := .sia, full_message := some message,
            message_type := some msg_type, account := some account_id,
            line := lineF, receiver := receiver, timestamp := some now,
            sia_account := some account, code := some ("999".toList),
            message := some ("SIA Event received".toList) }
        match findBracket message with
        | none => some ev
        | some content =>
          let ev :=
            match findCode3 false content with
            | some c3 => { ev with code := some c3 }
            | none => ev
          let ev :=
            match findNri content with
            | some (_, cs, zs) =>
              { ev with code := some (cs ++ '-' :: zs), ri := some zs,
                        zone := some (digitsToInt zs) }
            | none => ev
          let ev :=
            match findRi content with
            | some d =>
              { ev with ri := some d, zone := some (digitsToInt d) }
            | none => ev
          some ev

/-- `SIAServerTCP.handle_line` (server.py lines 44-78), one connection: each
list element is the decoded text of one `reader.read`; the loop ends at end
of input.  For a parsed event the response is written back first, then the
user coroutine is awaited; `_parse_message` returning `None` just continues
the loop.  An exception raised by the user coroutine is caught by the
`except Exception` arm, which logs and `break`s out of the loop (the
response for that line was already written).  Returns the responses written
and the events passed to the callback, in order. -/
def handle_line (accounts : List (List Char × SIAAccount))
    (raises : Event → Bool) (now : Int) :
    List (List Char) → List (List Char) × List Event
  | [] => ([], [])
  | msg :: rest =>
    match parse_message accounts now msg with
    | none => handle_line accounts raises now rest
    | some ev =>
      if raises ev then ([create_response ev], [ev])
      else
        let r := handle_line accounts raises now rest
        (create_response ev :: r.1, ev :: r.2)

/-! ### The asyncio client (`sia/aio/client.py`) -/

/-- Observable state built by `SIAClient.__init__` (client.py lines 19-46):
the accounts dict keyed by `account_id`, and `_server` / `task` both `None`
(a server is only created in `start`). -/
structure SIAClientState where
  host : List Char
  port : Nat
  accounts : List (List Char × SIAAccount)
  server_created : Bool
  task_created : Bool
deriving DecidableEq, Repr

inductive InitError where
  | typeError
deriving DecidableEq, Repr

/-- `SIAClient.__init__` (client.py lines 19-46): raise `TypeError` when the
supplied function is not a coroutine function (`isCoroutineFunction` models
`asyncio.iscoroutinefunction(function)`), before anything else happens;
otherwise store the configuration with `_accounts = {a.account_id: a for a in
accounts}`, `_server = None`, `task = None`. -/
def sia_client_init (host : List Char) (port : Nat)
    (accounts : List SIAAccount) (isCoroutineFunction : Bool) :
    Except InitError SIAClientState :=
  if ¬ isCoroutineFunction then .error .typeError
  else
    .ok { host := host, port := port, accounts := accountsDict accounts,
          server_created := false, task_created := false }

/-! ### Concrete fixtures used by counterexamples and witnesses -/

/-- The account of the spec's concrete scenario: `"1111"`, here with a 40 s
backward/forward timestamp tolerance configured. -/
def acct1111 : SIAAccount :=
  { account_id := "1111".toList, key := some ("AAAAAAAAAAAAAAAA".toList),
    allowed_timeband := some (40000000, 40000000) }

/-- Accounts dict holding only account `"1111"`. -/
def acctsFixture : List (List Char × SIAAccount) := [("1111".toList, acct1111)]

/-- The scenario line built exactly as `build_packet` of smoke_test.py does
for account `"1111"`, code `"CL"`, zone `1`: content `|Nri1/CL501]` plus a
timestamp in `_HH:MM:SS,MM-DD-YYYY` form. -/
def c8line : List Char :=
  "\"SIA-DCS\"6002L0#1111[|Nri1/CL501]_10:11:12,10-12-2026".toList

/-- The full packet: 4-hex CRC over the line, 4-hex length, then the line —
its checksum and length fields are correct by construction. -/
def c8packet : List Char :=
  crc_calc_hex (c8line.map Char.toNat) ++ toHex4 c8line.length ++ c8line

/-- The full event the asyncio parser produces for `c8packet`. -/
def c8event : Event :=
  (parse_message acctsFixture 0 c8packet).getD { kind := .nak }

/-- A keep-alive line for the known account `"1111"`. -/
def ohLineKnown : List Char := "\"OH\"R0L0#1111".toList

/-- The keep-alive event the asyncio parser produces for `ohLineKnown`. -/
def ohEvent : Event :=
  (parse_message acctsFixture 0 ohLineKnown).getD { kind := .nak }

/-- A keep-alive line for an unknown account `"9999"`. -/
def ohLineUnknown : List Char := "\"OH\"R0L0#9999".toList

/-- A well-formed full-event line for an unknown account `"9999"`. -/
def siaLineUnknown : List Char :=
  "\"SIA-DCS\"6002L0#9999[|Nri1/CL501]_10:11:12,10-12-2026".toList

/-- A full event whose declared checksum differs from the computed one, with
a resolved account, a code, and an in-tolerance timestamp. -/
def eBadCrc : Event :=
  { kind := .sia, msg_crc := some ("1234".toList),
    calc_crc := some ("ABCD".toList), account := some ("1111".toList),
    code := some ("999".toList), timestamp := some 0,
    sia_account := some acct1111 }

/-- A full event violating checksum, code presence and timestamp tolerance
at once (vs `now = 0`): mismatched CRC, no code, a timestamp 1000 s old. -/
def eInvalidAll : Event :=
  { kind := .sia, msg_crc := some ("1234".toList),
    calc_crc := some ("ABCD".toList), account := some ("1111".toList),
    code := none, timestamp := some (-1000000000),
    sia_account := some acct1111 }

/-- A full event whose timestamp is 100 s old: inside the hard-coded 300 s
window but far outside the account's configured 40 s tolerance. -/
def eStale : Event :=
  { kind := .sia, account := some ("1111".toList),
    code := some ("999".toList), timestamp := some (-100000000),
    sia_account := some acct1111 }

/-- A full event carrying only the fields `valid_timestamp` reads: the
resolved account and the parsed timestamp. -/
def mkTsEvent (acct : Option SIAAccount) (t : Option Int) : Event :=
  { kind := .sia, timestamp := t, sia_account := acct }

/-- Modelled from the spec (§4.3 step 9, §8): the timestamp check as the
specification words it — compare against now using the account's configured
forward/backward tolerance, boundary inclusive, disabled when the policy is
absent.  Used only to compare with the source's `valid_timestamp`. -/
def valid_timestamp_spec (e : Event) (now : Int) : Bool :=
  match e.sia_account with
  | none => true
  | some acct =>
    match acct.allowed_timeband with
    | none => true
    | some (behind, ahead) =>
      match e.timestamp with
      | none => true
      | some t => decide (now - behind ≤ t) && decide (t ≤ now + ahead)

/-! ### Lemmas: the smoke-test CRC loop is the standard reflected CRC-16

The loop of `crc_calc` keeps the byte in `temp` and feeds one data bit per
iteration; the standard form xors the whole byte into the register first.
The bridge invariant is that the standard register equals the loop's
register xor its remaining `temp` bits. -/

theorem shiftRight_one_eq (n : Nat) : n >>> 1 = n / 2 := by
  have h := Nat.shiftRight_succ n 0
  simpa using h

theorem xor_small_shiftRight_one (t m : Nat) (hm : m < 2) :
    (t ^^^ m) >>> 1 = t >>> 1 := by
  rw [shiftRight_one_eq, shiftRight_one_eq, Nat.xor_div_two]
  interval_cases m <;> simp

theorem crcBitStep_snd (c t : Nat) : (crcBitStep (c, t)).2 = t >>> 1 := by
  show (t ^^^ (c &&& 1)) >>> 1 = t >>> 1
  apply xor_small_shiftRight_one
  rw [Nat.and_one_is_mod]
  exact Nat.mod_lt _ (by decide)

theorem xor_shiftRight_one (a b : Nat) :
    (a ^^^ b) >>> 1 = a >>> 1 ^^^ b >>> 1 := by
  rw [shiftRight_one_eq, shiftRight_one_eq, shiftRight_one_eq, Nat.xor_div_two]

theorem crcBitStep_invariant (c t : Nat) :
    stdBitStep (c ^^^ t) = (crcBitStep (c, t)).1 ^^^ (crcBitStep (c, t)).2 := by
  have htemp : (t ^^^ (c &&& 1)) &&& 1 = (c ^^^ t) &&& 1 := by
    rw [Nat.and_xor_distrib_right, Nat.and_xor_distrib_right,
        Nat.and_assoc, Nat.and_self, Nat.xor_comm]
  have hz : (c &&& 1) >>> 1 = 0 := by
    rw [shiftRight_one_eq, Nat.and_one_is_mod]
    exact Nat.div_eq_of_lt (Nat.mod_lt _ (by decide))
  simp only [crcBitStep, stdBitStep, htemp]
  by_cases h : (c ^^^ t) &&& 1 = 1 <;>
    simp only [h, if_true, if_false, xor_shiftRight_one, hz, Nat.xor_zero]
  rw [Nat.xor_assoc, Nat.xor_assoc, Nat.xor_comm 0xA001]

theorem crcBitStep_iterate_snd (k : Nat) : ∀ c t : Nat,
    (crcBitStep^[k] (c, t)).2 = t >>> k := by
  induction k with
  | zero => intro c t; simp
  | succ n ih =>
    intro c t
    rw [Function.iterate_succ_apply]
    have hpair : crcBitStep (c, t) = ((crcBitStep (c, t)).1, t >>> 1) := by
      rw [← crcBitStep_snd c t]
    rw [hpair, ih, ← Nat.shiftRight_add]
    rw [Nat.add_comm]

theorem crcBitStep_iterate_invariant (k : Nat) : ∀ c t : Nat,
    stdBitStep^[k] (c ^^^ t) =
      (crcBitStep^[k] (c, t)).1 ^^^ (crcBitStep^[k] (c, t)).2 := by
  induction k with
  | zero => intro c t; simp
  | succ n ih =>
    intro c t
    rw [Function.iterate_succ_apply, Function.iterate_succ_apply,
        crcBitStep_invariant c t]
    have hpair : crcBitStep (c, t) =
        ((crcBitStep (c, t)).1, (crcBitStep (c, t)).2) := rfl
    rw [hpair] at *
    exact ih _ _

theorem crcByte_eq_stdByte (c b : Nat) (hb : b < 256) :
    crcByte c b = stdByte c b := by
  unfold crcByte stdByte
  rw [crcBitStep_iterate_invariant 8 c b, crcBitStep_iterate_snd 8 c b]
  have : b >>> 8 = 0 := by
    rw [Nat.shiftRight_eq_div_pow]
    exact Nat.div_eq_of_lt hb
  rw [this, Nat.xor_zero]

theorem crc_calc_eq_aux (bs : List Nat) (hb : ∀ b ∈ bs, b < 256) :
    ∀ c : Nat, bs.foldl crcByte c = bs.foldl stdByte c := by
  induction bs with
  | nil => intro c; rfl
  | cons x xs ih =>
    intro c
    simp only [List.foldl_cons]
    rw [crcByte_eq_stdByte c x (hb x (by simp))]
    exact ih (fun b hbm => hb b (by simp [hbm])) _

theorem crcBitStep_fst_lt (c t : Nat) (hc : c < 65536) :
    (crcBitStep (c, t)).1 < 65536 := by
  have hdiv : c >>> 1 < 65536 :=
    Nat.lt_of_le_of_lt (by rw [shiftRight_one_eq]; exact Nat.div_le_self c 2) hc
  simp only [crcBitStep]
  split
  · exact Nat.xor_lt_two_pow (n := 16) hdiv (by decide)
  · exact hdiv

theorem crcBitStep_iterate_fst_lt (k : Nat) : ∀ c t : Nat, c < 65536 →
    (crcBitStep^[k] (c, t)).1 < 65536 := by
  induction k with
  | zero => intro c t hc; simpa using hc
  | succ n ih =>
    intro c t hc
    rw [Function.iterate_succ_apply]
    have hpair : crcBitStep (c, t) =
        ((crcBitStep (c, t)).1, (crcBitStep (c, t)).2) := rfl
    rw [hpair]
    exact ih _ _ (crcBitStep_fst_lt c t hc)

theorem crc_calc_lt_aux (bs : List Nat) : ∀ c : Nat, c < 65536 →
    bs.foldl crcByte c < 65536 := by
  induction bs with
  | nil => intro c hc; exact hc
  | cons x xs ih =>
    intro c hc
    simp only [List.foldl_cons]
    exact ih _ (crcBitStep_iterate_fst_lt 8 c x hc)

theorem hexDigitU_mem (m : Nat) (hm : m < 16) :
    hexDigitU m ∈ ("0123456789ABCDEF".toList) := by
  interval_cases m <;> decide

theorem toHex4_chars (n : Nat) :
    ∀ ch ∈ toHex4 n, ch ∈ ("0123456789ABCDEF".toList) := by
  intro ch hch
  simp only [toHex4, List.mem_cons, List.not_mem_nil, or_false] at hch
  rcases hch with h | h | h | h <;> rw [h] <;>
    exact hexDigitU_mem _ (Nat.mod_lt _ (by decide))

/-- C4 (confirmed): the checksum compute function `crc_calc` equals the
standard CRC-16 with reflected polynomial 0xA001, initial value 0, processed
byte-by-byte with 8 bit-shift steps per byte; its result fits in 16 bits and
its serialized output is the 4-hex-digit uppercase rendering of that value;
`verify(bytes, declared)` holds iff the (standard) CRC of the bytes equals
the declared value. -/
theorem crc_compute_matches_standard (bs : List Nat) (d : Nat)
    (hb : ∀ b ∈ bs, b < 256) :
    crc_calc bs = crc16_std bs ∧
    crc_calc bs < 65536 ∧
    (verify bs d = true ↔ crc16_std bs = d) ∧
    crc_calc_hex bs = toHex4 (crc16_std bs) ∧
    (crc_calc_hex bs).length = 4 ∧
    (∀ ch ∈ crc_calc_hex bs, ch ∈ ("0123456789ABCDEF".toList)) := by
  have heq : crc_calc bs = crc16_std bs := crc_calc_eq_aux bs hb 0
  refine ⟨heq, crc_calc_lt_aux bs 0 (by decide), ?_, ?_, rfl, toHex4_chars _⟩
  · unfold verify
    rw [heq]
    exact beq_iff_eq
  · unfold crc_calc_hex
    rw [heq]

/-- C4 witness: the theorem applied to the bytes of `"123456789"` (whose
CRC-16/ARC is the standard check value 0xBB3D) and declared value 0xBB3D. -/
theorem crc_compute_matches_standard_witness :
    (∀ b ∈ ("123456789".toList.map Char.toNat), b < 256) ∧
    (crc_calc ("123456789".toList.map Char.toNat) =
       crc16_std ("123456789".toList.map Char.toNat) ∧
     crc_calc ("123456789".toList.map Char.toNat) < 65536 ∧
     (verify ("123456789".toList.map Char.toNat) 0xBB3D = true ↔
       crc16_std ("123456789".toList.map Char.toNat) = 0xBB3D) ∧
     crc_calc_hex ("123456789".toList.map Char.toNat) =
       toHex4 (crc16_std ("123456789".toList.map Char.toNat)) ∧
     (crc_calc_hex ("123456789".toList.map Char.toNat)).length = 4 ∧
     (∀ ch ∈ crc_calc_hex ("123456789".toList.map Char.toNat),
        ch ∈ ("0123456789ABCDEF".toList))) :=
  ⟨by decide, crc_compute_matches_standard _ 0xBB3D (by decide)⟩

/-- C1 (amended): every full alarm event (`SIAEvent`), regardless of checksum
match, account resolution, code presence or timestamp validity, has response
Acknowledge and is passed to the dispatch callback by `func_wrap`, with the
valid-events counter incremented; keep-alive, reject and absent events are
never dispatched by it. -/
theorem every_sia_event_acked_and_dispatched (e : Event)
    (raises : Event → Bool) (hk : e.kind = EventKind.sia) :
    response e = ResponseType.ACK ∧
    (func_wrap raises (some e)).dispatched = true ∧
    (func_wrap raises (some e)).valid_events_inc = 1 ∧
    (∀ e2 : Event, e2.kind ≠ EventKind.sia →
       (func_wrap raises (some e2)).dispatched = false) ∧
    (func_wrap raises none).dispatched = false := by
  have hresp : response e = ResponseType.ACK := by
    unfold response valid_message
    rw [hk]
    rfl
  refine ⟨hresp, ?_, ?_, ?_, rfl⟩
  · unfold func_wrap
    simp [hk, hresp]
  · unfold func_wrap
    simp [hk, hresp]
  · intro e2 h2
    unfold func_wrap
    simp [h2]

/-- C1 counterexample: `eInvalidAll` has a checksum mismatch, no code, and a
timestamp 1000 s out of tolerance, yet its response is Acknowledge and
`func_wrap` hands it to the dispatch callback — refuting "every other event
yields Reject and is never dispatched". -/
theorem every_sia_event_acked_counterexample :
    eInvalidAll.msg_crc ≠ eInvalidAll.calc_crc ∧
    code_not_found eInvalidAll = true ∧
    valid_timestamp eInvalidAll 0 = false ∧
    response eInvalidAll = ResponseType.ACK ∧
    (func_wrap (fun _ => false) (some eInvalidAll)).dispatched = true := by
  decide

/-- C1 witness: the amended theorem applied to the concrete event
`eBadCrc`. -/
theorem every_sia_event_acked_and_dispatched_witness :
    eBadCrc.kind = EventKind.sia ∧
    (response eBadCrc = ResponseType.ACK ∧
     (func_wrap (fun _ => false) (some eBadCrc)).dispatched = true ∧
     (func_wrap (fun _ => false) (some eBadCrc)).valid_events_inc = 1 ∧
     (∀ e2 : Event, e2.kind ≠ EventKind.sia →
        (func_wrap (fun _ => false) (some e2)).dispatched = false) ∧
     (func_wrap (fun _ => false) none).dispatched = false) :=
  ⟨by decide,
   every_sia_event_acked_and_dispatched eBadCrc (fun _ => false) (by decide)⟩

/-- C3 (amended): a declared-vs-computed checksum mismatch is never detected:
`valid_message` is true for every event, so the full event's response is
Acknowledge rather than Reject, and `parse_and_check_event` never increments
the checksum-mismatch counter on any input; parsing is total, so the
connection continues. -/
theorem crc_mismatch_not_detected (e : Event)
    (hk : e.kind = EventKind.sia) (_hcrc : e.msg_crc ≠ e.calc_crc) :
    valid_message e = true ∧
    response e = ResponseType.ACK ∧
    (∀ fromLine now data,
       CounterName.crc ∉ (parse_and_check_event fromLine now data).2) := by
  refine ⟨rfl, by unfold response valid_message; rw [hk]; rfl, ?_⟩
  intro fromLine now data
  unfold parse_and_check_event
  split
  · simp
  · split
    · simp
    · simp
    · split
      · simp
      · simp only [valid_message, Bool.not_true]
        split
        · simp at *
        · split
          · simp
          · split <;> simp

/-- C3 counterexample: for `eBadCrc` (declared CRC `"1234"`, computed CRC
`"ABCD"`), `valid_message` is true, the response is Acknowledge rather than
Reject, and the base server increments only the total-events counter — the
checksum-mismatch counter stays untouched. -/
theorem crc_mismatch_not_detected_counterexample :
    eBadCrc.msg_crc ≠ eBadCrc.calc_crc ∧
    valid_message eBadCrc = true ∧
    response eBadCrc = ResponseType.ACK ∧
    (parse_and_check_event (fun _ => Except.ok eBadCrc) 0 ("x".toList)).2 =
      [CounterName.events] := by
  decide

/-- C3 witness: the amended theorem applied to `eBadCrc`. -/
theorem crc_mismatch_not_detected_witness :
    eBadCrc.kind = EventKind.sia ∧
    eBadCrc.msg_crc ≠ eBadCrc.calc_crc ∧
    (valid_message eBadCrc = true ∧
     response eBadCrc = ResponseType.ACK ∧
     (∀ fromLine now data,
        CounterName.crc ∉ (parse_and_check_event fromLine now data).2)) :=
  ⟨by decide, by decide,
   crc_mismatch_not_detected eBadCrc (by decide) (by decide)⟩

/-- C2 (amended): a keep-alive line whose account id resolves is answered
with the fixed literal `"DUH"` and its OH event IS passed to the user
dispatch callback by `handle_line`; a keep-alive line whose account id does
not resolve produces no event at all, so no response (DUH or otherwise) is
written and nothing is dispatched. -/
theorem keepalive_duh_and_dispatched (accounts : List (List Char × SIAAccount))
    (now : Int) (msg : List Char) (e : Event)
    (h1 : parse_message accounts now msg = some e)
    (h2 : e.kind = EventKind.oh) :
    create_response e = "\"DUH\"".toList ∧
    handle_line accounts (fun _ => false) now [msg] =
      (["\"DUH\"".toList], [e]) ∧
    (∀ msg2 tag acc, siaRegexSearch (pyStrip msg2) = some (tag, acc) →
       lookupAccount accounts (acc.map Char.toUpper) = none →
       parse_message accounts now msg2 = none) := by
  have hcr : create_response e = "\"DUH\"".toList := by
    unfold create_response
    rw [h2]
  refine ⟨hcr, ?_, ?_⟩
  · unfold handle_line
    rw [h1]
    simp [hcr, handle_line]
  · intro msg2 tag acc h3 h4
    simp only [parse_message, h3, h4]

/-- C2 counterexample: for the keep-alive line of known account `"1111"` the
dispatch callback IS invoked (with the OH event), and for the keep-alive
line of unknown account `"9999"` no response at all is written — refuting
both "the dispatch callback is never invoked" and "the response is the
KeepAliveAck literal regardless of whether the account id is known". -/
theorem keepalive_counterexample :
    response ohEvent = ResponseType.DUH ∧
    (handle_line acctsFixture (fun _ => false) 0 [ohLineKnown]).2 =
      [ohEvent] ∧
    handle_line acctsFixture (fun _ => false) 0 [ohLineUnknown] = ([], []) := by
  decide

/-- C2 witness: the amended theorem applied to the keep-alive line of the
known account `"1111"`. -/
theorem keepalive_duh_and_dispatched_witness :
    parse_message acctsFixture 0 ohLineKnown = some ohEvent ∧
    ohEvent.kind = EventKind.oh ∧
    (create_response ohEvent = "\"DUH\"".toList ∧
     handle_line acctsFixture (fun _ => false) 0 [ohLineKnown] =
       (["\"DUH\"".toList], [ohEvent]) ∧
     (∀ msg2 tag acc, siaRegexSearch (pyStrip msg2) = some (tag, acc) →
        lookupAccount acctsFixture (acc.map Char.toUpper) = none →
        parse_message acctsFixture 0 msg2 = none)) :=
  ⟨by decide, by decide,
   keepalive_duh_and_dispatched acctsFixture 0 ohLineKnown ohEvent
     (by decide) (by decide)⟩

/-- C5 (amended): a line whose account id does not resolve never throws and
is never dispatched, but the two servers differ from the claim: the asyncio
parser returns `None`, so no reject response is written and no counter
exists to increment; the threaded base server (whose `from_line`, not under
`src/`, signals `NoAccountError`) counts total-events and unknown-account
once each and produces a NAK (reject) event, which the dispatch wrapper
never dispatches. -/
theorem unknown_account_dropped (accounts : List (List Char × SIAAccount))
    (now : Int) (msg tag acc : List Char) (raises : Event → Bool)
    (h1 : siaRegexSearch (pyStrip msg) = some (tag, acc))
    (h2 : lookupAccount accounts (acc.map Char.toUpper) = none)
    (h3 : pyStrip (msg.filter (fun c => c.toNat ≤ 127)) ≠ []) :
    parse_message accounts now msg = none ∧
    handle_line accounts raises now [msg] = ([], []) ∧
    parse_and_check_event (fun _ => Except.error ParseFailure.noAccount) now
        msg =
      (some { kind := EventKind.nak },
       [CounterName.events, CounterName.account]) ∧
    response { kind := EventKind.nak } = ResponseType.NAK ∧
    (func_wrap raises (some { kind := EventKind.nak })).dispatched = false := by
  have hp : parse_message accounts now msg = none := by
    simp only [parse_message, h1, h2]
  refine ⟨hp, ?_, ?_, rfl, rfl⟩
  · unfold handle_line
    rw [hp]
    rfl
  · unfold parse_and_check_event
    rw [if_neg]
    simpa using h3

/-- C5 counterexample: for the well-formed full-event line of unknown
account `"9999"`, the asyncio server writes no reject response at all (it
drops the line) — refuting "it produces a reject response [and] increments
the unknown-account counter". -/
theorem unknown_account_counterexample :
    parse_message acctsFixture 0 siaLineUnknown = none ∧
    handle_line acctsFixture (fun _ => false) 0 [siaLineUnknown] =
      ([], []) := by
  decide

/-- C5 witness: the amended theorem applied to the unknown-account line. -/
theorem unknown_account_dropped_witness :
    siaRegexSearch (pyStrip siaLineUnknown) =
      some ("SIA-DCS".toList, "9999".toList) ∧
    lookupAccount acctsFixture (("9999".toList).map Char.toUpper) = none ∧
    pyStrip (siaLineUnknown.filter (fun c => c.toNat ≤ 127)) ≠ [] ∧
    (parse_message acctsFixture 0 siaLineUnknown = none ∧
     handle_line acctsFixture (fun _ => false) 0 [siaLineUnknown] = ([], []) ∧
     parse_and_check_event (fun _ => Except.error ParseFailure.noAccount) 0
         siaLineUnknown =
       (some { kind := EventKind.nak },
        [CounterName.events, CounterName.account]) ∧
     response { kind := EventKind.nak } = ResponseType.NAK ∧
     (func_wrap (fun _ => false)
        (some { kind := EventKind.nak })).dispatched = false) :=
  ⟨by decide, by decide, by decide,
   unknown_account_dropped acctsFixture 0 siaLineUnknown ("SIA-DCS".toList)
     ("9999".toList) (fun _ => false) (by decide) (by decide) (by decide)⟩

/-- C6 (amended): whenever the account's timestamp policy is present,
`valid_timestamp` compares the event's timestamp against now with a fixed
300-second tolerance in both directions, boundary inclusive — exactly
`now - 300 s` is valid and one microsecond older is invalid — and the
configured tolerance value is ignored (any two configured values behave
identically); the check returns true unconditionally when the policy is
`None`, when no account is resolved, or (not shown here) when the timestamp
is absent. -/
theorem valid_timestamp_fixed_window (a : SIAAccount) (tb : Int × Int)
    (t now : Int) (h : a.allowed_timeband = some tb) :
    valid_timestamp (mkTsEvent (some a) (some (now - toleranceMicros))) now
      = true ∧
    valid_timestamp (mkTsEvent (some a) (some (now - toleranceMicros - 1))) now
      = false ∧
    valid_timestamp (mkTsEvent (some a) (some (now + toleranceMicros))) now
      = true ∧
    valid_timestamp (mkTsEvent (some a) (some (now + toleranceMicros + 1))) now
      = false ∧
    (∀ tb2 : Int × Int,
       valid_timestamp
         (mkTsEvent (some { a with allowed_timeband := some tb2 }) (some t))
         now =
       valid_timestamp (mkTsEvent (some a) (some t)) now) ∧
    valid_timestamp
      (mkTsEvent (some { a with allowed_timeband := none }) (some t)) now
      = true ∧
    valid_timestamp (mkTsEvent none (some t)) now = true := by
  refine ⟨?_, ?_, ?_, ?_, ?_, rfl, rfl⟩
  · simp only [valid_timestamp, mkTsEvent, h, toleranceMicros,
      Bool.and_eq_true, decide_eq_true_eq]
    omega
  · simp only [valid_timestamp, mkTsEvent, h, toleranceMicros,
      Bool.and_eq_false_iff, decide_eq_false_iff_not]
    omega
  · simp only [valid_timestamp, mkTsEvent, h, toleranceMicros,
      Bool.and_eq_true, decide_eq_true_eq]
    omega
  · simp only [valid_timestamp, mkTsEvent, h, toleranceMicros,
      Bool.and_eq_false_iff, decide_eq_false_iff_not]
    omega
  · intro tb2
    simp only [valid_timestamp, mkTsEvent, h]

/-- C6 counterexample: account `"1111"` is configured with a 40 s
forward/backward tolerance, and `eStale` is 100 s old — outside the
configured tolerance, so the claim (and `valid_timestamp_spec`, the check as
the spec words it) says invalid — yet the code's `valid_timestamp` accepts
it, because it uses its hard-coded 300 s window instead of the account's
configured tolerance. -/
theorem valid_timestamp_counterexample :
    acct1111.allowed_timeband = some (40000000, 40000000) ∧
    eStale.timestamp = some (-100000000) ∧
    valid_timestamp eStale 0 = true ∧
    valid_timestamp_spec eStale 0 = false := by
  decide

/-- C6 witness: the amended theorem applied to account `"1111"`. -/
theorem valid_timestamp_fixed_window_witness :
    acct1111.allowed_timeband = some (40000000, 40000000) ∧
    (valid_timestamp
       (mkTsEvent (some acct1111) (some ((0 : Int) - toleranceMicros))) 0
       = true ∧
     valid_timestamp
       (mkTsEvent (some acct1111) (some ((0 : Int) - toleranceMicros - 1))) 0
       = false ∧
     valid_timestamp
       (mkTsEvent (some acct1111) (some ((0 : Int) + toleranceMicros))) 0
       = true ∧
     valid_timestamp
       (mkTsEvent (some acct1111) (some ((0 : Int) + toleranceMicros + 1))) 0
       = false ∧
     (∀ tb2 : Int × Int,
        valid_timestamp
          (mkTsEvent (some { acct1111 with allowed_timeband := some tb2 })
            (some (-100000000))) 0 =
        valid_timestamp (mkTsEvent (some acct1111) (some (-100000000))) 0) ∧
     valid_timestamp
       (mkTsEvent (some { acct1111 with allowed_timeband := none })
         (some (-100000000))) 0 = true ∧
     valid_timestamp (mkTsEvent none (some (-100000000))) 0 = true) :=
  ⟨by decide,
   valid_timestamp_fixed_window acct1111 (40000000, 40000000) (-100000000) 0
     (by decide)⟩

/-- C7 (amended): in the base server's `async_func_wrap` a callback
exception is indeed caught and counted — the valid-events counter and the
user-code-error counter each increment once and the wrapper returns
normally; but the asyncio server's `handle_line` invokes the callback
directly, and an exception there (caught by the generic handler) breaks that
connection's read loop after the response was written: the remaining lines
of the connection are never served.  The server itself survives either
way. -/
theorem callback_exception_breaks_aio_loop (e : Event)
    (raises : Event → Bool) (hk : e.kind = EventKind.sia)
    (hr : raises e = true) :
    (async_func_wrap raises (some e)).dispatched = true ∧
    (async_func_wrap raises (some e)).valid_events_inc = 1 ∧
    (async_func_wrap raises (some e)).user_code_inc = 1 ∧
    (∀ accounts now msg rest e2,
       parse_message accounts now msg = some e2 → raises e2 = true →
       handle_line accounts raises now (msg :: rest) =
         ([create_response e2], [e2])) := by
  have hresp : response e = ResponseType.ACK := by
    unfold response valid_message
    rw [hk]
    rfl
  refine ⟨?_, ?_, ?_, ?_⟩
  · unfold async_func_wrap
    simp [hk, hresp]
  · unfold async_func_wrap
    simp [hk, hresp]
  · unfold async_func_wrap
    simp [hk, hresp, hr]
  · intro accounts now msg rest e2 hp hr2
    unfold handle_line
    rw [hp]
    simp [hr2]

set_option maxRecDepth 1000000

/-- C7 counterexample: two identical valid packets on one connection; with a
callback that raises, only the first line is answered — the connection loop
terminates and the second line is never served, refuting "never terminates
the connection loop...; subsequent lines on the same connection continue to
be served".  With a non-raising callback both lines are answered. -/
theorem callback_exception_counterexample :
    (handle_line acctsFixture (fun _ => true) 0 [c8packet, c8packet]).1.length
      = 1 ∧
    (handle_line acctsFixture (fun _ => false) 0 [c8packet, c8packet]).1.length
      = 2 := by
  decide

/-- C7 witness: the amended theorem applied to `eBadCrc` with an
always-raising callback. -/
theorem callback_exception_breaks_aio_loop_witness :
    eBadCrc.kind = EventKind.sia ∧
    ((fun _ : Event => true) eBadCrc = true) ∧
    ((async_func_wrap (fun _ => true) (some eBadCrc)).dispatched = true ∧
     (async_func_wrap (fun _ => true) (some eBadCrc)).valid_events_inc = 1 ∧
     (async_func_wrap (fun _ => true) (some eBadCrc)).user_code_inc = 1 ∧
     (∀ accounts now msg rest e2,
        parse_message accounts now msg = some e2 →
        (fun _ : Event => true) e2 = true →
        handle_line accounts (fun _ => true) now (msg :: rest) =
          ([create_response e2], [e2]))) :=
  ⟨by decide, rfl,
   callback_exception_breaks_aio_loop eBadCrc (fun _ => true) (by decide)
     rfl⟩

/-- C8 (amended): for the concrete scenario line (account `"1111"`, built
with code `"CL"`, zone `1`, correct checksum and length fields by
construction), the asyncio server answers with exactly
`"ACK"RR0LL0#1111` — the `R`/`L` markers are doubled because the extracted
receiver `"R0"` and line `"L0"` are re-prefixed by `create_response` — and
the dispatch callback receives exactly one event, whose code is the parser's
fallback `"999"` (the simplified parser does not extract `"CL"` from this
content) with zone/`ri` `1`. -/
theorem scenario_response_and_code :
    c8packet =
      toHex4 (crc_calc (c8line.map Char.toNat)) ++ toHex4 c8line.length ++
        c8line ∧
    handle_line acctsFixture (fun _ => false) 0 [c8packet] =
      (["\"ACK\"RR0LL0#1111".toList], [c8event]) ∧
    c8event.code = some ("999".toList) ∧
    c8event.account = some ("1111".toList) ∧
    c8event.ri = some ("1".toList) ∧
    c8event.kind = EventKind.sia := by
  decide

/-- C8 counterexample: on the scenario packet the response bytes are
`"ACK"RR0LL0#1111`, not the claimed `"ACK"R0L0#1111`, and the dispatched
event's code is `"999"`, not the claimed `"CL"`. -/
theorem scenario_counterexample :
    (handle_line acctsFixture (fun _ => false) 0 [c8packet]).1 =
      ["\"ACK\"RR0LL0#1111".toList] ∧
    "\"ACK\"RR0LL0#1111".toList ≠ "\"ACK\"R0L0#1111".toList ∧
    (handle_line acctsFixture (fun _ => false) 0
        [c8packet]).2.map (fun e => e.code) = [some ("999".toList)] ∧
    some ("999".toList) ≠ some ("CL".toList) := by
  decide

/-- C9 (confirmed): every full (non-keep-alive) event the asyncio parser
emits for a known account carries a code — the fallback `"999"` is assigned
before any refinement, and every refinement writes another non-`None` code —
so `code_not_found` is false for each such event and the missing-code
rejection path is unreachable through this parser. -/
theorem parser_always_assigns_code
    (accounts : List (List Char × SIAAccount)) (now : Int)
    (msg : List Char) (e : Event)
    (h : parse_message accounts now msg = some e)
    (hk : e.kind = EventKind.sia) :
    e.code.isSome = true ∧ code_not_found e = false := by
  have hc : e.code.isSome = true := by
    simp only [parse_message] at h
    split at h
    · exact absurd h (by simp)
    · split at h
      · exact absurd h (by simp)
      · split at h
        · injection h with h2
          subst h2
          simp at hk
        · split at h
          · injection h with h2
            subst h2
            rfl
          · split at h <;> split at h <;> split at h <;>
              (injection h with h2; subst h2; rfl)
  refine ⟨hc, ?_⟩
  unfold code_not_found
  cases hcode : e.code with
  | none => rw [hcode] at hc; simp at hc
  | some v => rfl

/-- C9 witness: the theorem applied to the concrete scenario packet and its
parsed event. -/
theorem parser_always_assigns_code_witness :
    parse_message acctsFixture 0 c8packet = some c8event ∧
    c8event.kind = EventKind.sia ∧
    (c8event.code.isSome = true ∧ code_not_found c8event = false) :=
  ⟨by decide, by decide,
   parser_always_assigns_code acctsFixture 0 c8packet c8event (by decide)
     (by decide)⟩

theorem lookup_insert_self (d : List (List Char × SIAAccount)) (k : List Char)
    (v : SIAAccount) : lookupAccount (insertAccount d k v) k = some v := by
  induction d with
  | nil => simp [insertAccount, lookupAccount]
  | cons p rest ih =>
    obtain ⟨k2, v2⟩ := p
    by_cases hk : k2 = k
    · simp [insertAccount, lookupAccount, hk]
    · simp [insertAccount, lookupAccount, hk, ih]

theorem lookup_insert_ne (d : List (List Char × SIAAccount))
    (k k2 : List Char) (v : SIAAccount) (h : k2 ≠ k) :
    lookupAccount (insertAccount d k v) k2 = lookupAccount d k2 := by
  have hne : k ≠ k2 := fun he => h he.symm
  induction d with
  | nil => simp [insertAccount, lookupAccount, hne]
  | cons p rest ih =>
    obtain ⟨k3, v3⟩ := p
    by_cases hk : k3 = k
    · subst hk
      simp [insertAccount, lookupAccount, hne]
    · simp [insertAccount, lookupAccount, hk, ih]

theorem lookup_foldl_keeps (as : List SIAAccount) :
    ∀ (d : List (List Char × SIAAccount)) (k : List Char),
      (lookupAccount d k).isSome = true →
      (lookupAccount
        (as.foldl (fun d2 a => insertAccount d2 a.account_id a) d) k).isSome
        = true := by
  induction as with
  | nil => intro d k h; exact h
  | cons x xs ih =>
    intro d k h
    simp only [List.foldl_cons]
    apply ih
    by_cases hk : k = x.account_id
    · subst hk
      rw [lookup_insert_self]
      rfl
    · rw [lookup_insert_ne _ _ _ _ hk]
      exact h

theorem lookup_wellKeyed_aux (as : List SIAAccount) :
    ∀ (d : List (List Char × SIAAccount)),
      (∀ k v, lookupAccount d k = some v → v.account_id = k) →
      ∀ k v,
        lookupAccount
          (as.foldl (fun d2 a => insertAccount d2 a.account_id a) d) k
          = some v → v.account_id = k := by
  induction as with
  | nil => intro d hd; exact hd
  | cons x xs ih =>
    intro d hd
    simp only [List.foldl_cons]
    apply ih
    intro k v hkv
    by_cases hk : k = x.account_id
    · subst hk
      rw [lookup_insert_self] at hkv
      cases hkv
      rfl
    · rw [lookup_insert_ne _ _ _ _ hk] at hkv
      exact hd k v hkv

theorem mem_foldl_accounts (as : List SIAAccount) :
    ∀ (d : List (List Char × SIAAccount)), ∀ a ∈ as,
      (lookupAccount
        (as.foldl (fun d2 a2 => insertAccount d2 a2.account_id a2) d)
        a.account_id).isSome = true := by
  induction as with
  | nil => intro d a ha; cases ha
  | cons x xs ih =>
    intro d a ha
    simp only [List.foldl_cons]
    rcases List.mem_cons.mp ha with h | h
    · subst h
      apply lookup_foldl_keeps
      rw [lookup_insert_self]
      rfl
    · exact ih _ a h

theorem mem_accountsDict (as : List SIAAccount) :
    ∀ a ∈ as, (lookupAccount (accountsDict as) a.account_id).isSome = true :=
  fun a ha => mem_foldl_accounts as [] a ha

/-- C10 (confirmed): constructing the asyncio `SIAClient` with a dispatch
function that is not a coroutine function raises `TypeError` immediately,
before any server or task exists; with a coroutine function, construction
succeeds with no server or task created and stores the accounts keyed by
`account_id` — every supplied account is findable under its own id and the
stored value's id equals the lookup key. -/
theorem client_init_type_check (host : List Char) (port : Nat)
    (as : List SIAAccount) :
    sia_client_init host port as false = Except.error InitError.typeError ∧
    sia_client_init host port as true =
      Except.ok { host := host, port := port, accounts := accountsDict as,
                  server_created := false, task_created := false } ∧
    (∀ a ∈ as, ∃ v,
       lookupAccount (accountsDict as) a.account_id = some v ∧
       v.account_id = a.account_id) := by
  refine ⟨rfl, rfl, ?_⟩
  intro a ha
  have h1 := mem_accountsDict as a ha
  cases hv : lookupAccount (accountsDict as) a.account_id with
  | none => rw [hv] at h1; simp at h1
  | some v =>
    refine ⟨v, rfl, ?_⟩
    exact lookup_wellKeyed_aux as []
      (by intro k v2 h2; simp [lookupAccount] at h2) _ v hv

/-- C10 witness: the theorem applied to host `"127.0.0.1"`, port 7777 and
the one-account list `[acct1111]`. -/
theorem client_init_type_check_witness :
    sia_client_init ("127.0.0.1".toList) 7777 [acct1111] false =
      Except.error InitError.typeError ∧
    sia_client_init ("127.0.0.1".toList) 7777 [acct1111] true =
      Except.ok { host := "127.0.0.1".toList, port := 7777,
                  accounts := accountsDict [acct1111],
                  server_created := false, task_created := false } ∧
    (∀ a ∈ [acct1111], ∃ v,
       lookupAccount (accountsDict [acct1111]) a.account_id = some v ∧
       v.account_id = a.account_id) :=
  client_init_type_check ("127.0.0.1".toList) 7777 [acct1111]

end PySIA
